import Mathlib

/-
  Verification of the resilience core of the app-ext-authz service:
  the decision engine (service.Authorize and its helpers), the
  failure-mode policy, the verdict translation, the transport-level
  token gate, and the circuit breaker and cache collaborators.

  The decision engine, configuration, recaptcha client and transports
  are translated directly from the Go sources.  The circuit breaker and
  cache package internals are not among the sources; those definitions
  are modelled from the specification and are marked as such.
-/

namespace ExtAuthz

/-- Result of a token validation as returned by the verdict client.
Mirrors recaptcha.ValidationResult; the float64 score is modelled as a
rational number. -/
structure ValidationResult where
  success : Bool
  score : ℚ
  action : String
  challengeTS : String
  hostname : String
  errorCodes : List String

/-- IsValidToken from the recaptcha package: a token is valid when the
verdict is successful and carries no error codes. -/
def ValidationResult.IsValidToken (r : ValidationResult) : Bool :=
  r.success && r.errorCodes.isEmpty

/-- The verdict the recaptcha client returns for the empty token: it
answers immediately with the missing-input-response error code and a nil
error, without contacting the external API. -/
def emptyTokenResult : ValidationResult :=
  { success := false, score := 0, action := "", challengeTS := "",
    hostname := "", errorCodes := ["missing-input-response"] }

/-- Cached form of a validation result.  Mirrors cache.ValidationResult:
the same verdict fields plus the write timestamp. -/
structure CacheValidationResult where
  success : Bool
  score : ℚ
  action : String
  challengeTS : String
  hostname : String
  errorCodes : List String
  timestamp : Nat

/-- Engine-relevant part of config.Config. -/
structure Config where
  failureMode : String
  circuitBreakerEnabled : Bool
  circuitBreakerFailureThreshold : Nat
  circuitBreakerRecoveryTimeSeconds : Nat
  cacheTTLSeconds : Nat
  cacheFailedTTLSeconds : Nat

/-- Defaults installed by config.Load before reading the environment. -/
def defaultConfig : Config :=
  { failureMode := "fail_open"
    circuitBreakerEnabled := true
    circuitBreakerFailureThreshold := 5
    circuitBreakerRecoveryTimeSeconds := 60
    cacheTTLSeconds := 30
    cacheFailedTTLSeconds := 300 }

/-- Authorization response of the decision engine.  Mirrors
service.AuthorizationResponse; score and cache are strings whose empty
value means the field is absent, exactly as the omitempty JSON fields. -/
structure AuthorizationResponse where
  allowed : Bool
  status : String
  score : String
  cache : String

/-- Modelled from the spec: circuit breaker states Closed, Open and
HalfOpen (the circuitbreaker package is not among the sources). -/
inductive BreakerState
  | Closed
  | Open
  | HalfOpen
deriving DecidableEq

/-- Modelled from the spec: circuitbreaker.Config with the failure
threshold, the recovery time and the half-open probe budget. -/
structure BreakerConfig where
  failureThreshold : Nat
  recoveryTime : Nat
  halfOpenMaxRequests : Nat

/-- Modelled from the spec: the breaker state record with the
consecutive-failure counter, the opening timestamp, the number of
half-open probes in flight and the monotone observability counters. -/
structure Breaker where
  state : BreakerState
  consecutiveFailures : Nat
  openedAt : Nat
  halfOpenRequests : Nat
  totalRequests : Nat
  totalFailures : Nat

/-- Modelled from the spec: a fresh breaker starts Closed with all
counters at zero. -/
def Breaker.init : Breaker :=
  { state := .Closed, consecutiveFailures := 0, openedAt := 0,
    halfOpenRequests := 0, totalRequests := 0, totalFailures := 0 }

/-- Modelled from the spec: lazy evaluation of the breaker state; an
Open breaker whose recovery deadline has passed counts as HalfOpen. -/
def Breaker.evalState (bc : BreakerConfig) (b : Breaker) (now : Nat) : BreakerState :=
  match b.state with
  | .Open => if b.openedAt + bc.recoveryTime ≤ now then .HalfOpen else .Open
  | s => s

/-- Modelled from the spec: the pure query used by the decision engine;
the breaker gates calls when it evaluates to Open, or to HalfOpen with
the probe budget exhausted. -/
def Breaker.isOpen (bc : BreakerConfig) (b : Breaker) (now : Nat) : Bool :=
  match Breaker.evalState bc b now with
  | .Open => true
  | .HalfOpen => decide (bc.halfOpenMaxRequests ≤ b.halfOpenRequests)
  | .Closed => false

/-- Outcome of one breaker-wrapped call: the propagated result, the
updated breaker, and whether the wrapped operation was invoked. -/
structure ExecResult where
  result : Except String Unit
  breaker : Breaker
  invoked : Bool

/-- Modelled from the spec: the execute wrapper.  A gated call returns a
breaker-open error without invoking the operation.  Otherwise the call
counts toward totalRequests; a success resets consecutiveFailures and
closes the breaker; a failure bumps the failure counters and trips the
breaker to Open when the threshold is reached or the probe failed. -/
def Breaker.execute (bc : BreakerConfig) (b : Breaker) (now : Nat)
    (opResult : Except String Unit) : ExecResult :=
  let st := Breaker.evalState bc b now
  let b1 : Breaker := { b with state := st }
  if Breaker.isOpen bc b now then
    { result := .error "circuit breaker is open", breaker := b1, invoked := false }
  else
    let b2 : Breaker := { b1 with totalRequests := b1.totalRequests + 1 }
    match opResult with
    | .ok _ =>
        { result := .ok (),
          breaker := { b2 with state := .Closed, consecutiveFailures := 0 },
          invoked := true }
    | .error e =>
        let b3 : Breaker :=
          { b2 with totalFailures := b2.totalFailures + 1,
                    consecutiveFailures := b2.consecutiveFailures + 1 }
        if b3.state = .HalfOpen ∨ bc.failureThreshold ≤ b3.consecutiveFailures then
          { result := .error e,
            breaker := { b3 with state := .Open, openedAt := now },
            invoked := true }
        else
          { result := .error e, breaker := b3, invoked := true }

/-- Breaker configuration wired by service.NewService from the
application configuration; the half-open budget is the constant 3. -/
def Service.breakerConfig (cfg : Config) : BreakerConfig :=
  { failureThreshold := cfg.circuitBreakerFailureThreshold
    recoveryTime := cfg.circuitBreakerRecoveryTimeSeconds
    halfOpenMaxRequests := 3 }

/-- Modelled from the spec: cache key generation (the cache package is
not among the sources); the spec records that the source uses the raw
token itself as the key. -/
def GenerateCacheKey (token : String) : String := token

/-- Outcome of a cache lookup as seen by the decision engine: a stored
verdict, a miss, or a backend error. -/
inductive CacheLookup
  | found (entry : CacheValidationResult)
  | notFound
  | backendError (msg : String)

/-- Decimal digit character. -/
def digitChar (n : Nat) : Char := Char.ofNat (48 + n)

/-- Exactly two decimal digits of a number of hundredths. -/
def frac2 (n : Nat) : String := String.mk [digitChar (n / 10 % 10), digitChar (n % 10)]

/-- Round to the nearest integer, ties to even. -/
def roundHalfEven (q : ℚ) : ℤ :=
  let f := ⌊q⌋
  let r := q - f
  if r < 1 / 2 then f
  else if 1 / 2 < r then f + 1
  else if f % 2 = 0 then f else f + 1

/-- Model of strconv.FormatFloat with format f and precision 2 over the
rational score model: round the value to hundredths and print the
integer part, a point, and exactly two fractional digits. -/
def formatFloat2 (q : ℚ) : String :=
  let n := (roundHalfEven (q * 100)).toNat
  toString (n / 100) ++ "." ++ frac2 (n % 100)

/-- Service.createResponse: allowed is IsValidToken; status is valid
for a valid token, otherwise the first error code, or invalid when no
code was given; the score string is set only for a positive score. -/
def Service.createResponse (result : ValidationResult) (cacheStatus : String) :
    AuthorizationResponse :=
  { allowed := result.IsValidToken
    status :=
      if result.IsValidToken then "valid"
      else
        match result.errorCodes with
        | [] => "invalid"
        | c :: _ => c
    score := if 0 < result.score then formatFloat2 result.score else ""
    cache := cacheStatus }

/-- Service.handleCircuitBreakerOpen: the failure-mode policy applied
when the breaker gates the call. -/
def Service.handleCircuitBreakerOpen (cfg : Config) : AuthorizationResponse :=
  if cfg.failureMode = "fail_open" then
    { allowed := true, status := "degraded", score := "", cache := "miss" }
  else
    { allowed := false, status := "circuit_breaker_open", score := "", cache := "miss" }

/-- Service.handleValidationError: the failure-mode policy applied when
the verdict call itself failed. -/
def Service.handleValidationError (cfg : Config) : AuthorizationResponse :=
  if cfg.failureMode = "fail_open" then
    { allowed := true, status := "degraded", score := "", cache := "miss" }
  else
    { allowed := false, status := "timeout", score := "", cache := "miss" }

/-- Service.convertCacheResult: a cached verdict read back as a
recaptcha validation result. -/
def Service.convertCacheResult (c : CacheValidationResult) : ValidationResult :=
  { success := c.success, score := c.score, action := c.action,
    challengeTS := c.challengeTS, hostname := c.hostname, errorCodes := c.errorCodes }

/-- Service.cacheResult: the cache write performed for a verdict.  The
entry copies the verdict fields and stamps the current time; the TTL is
the positive TTL for a valid token and the failed TTL otherwise. -/
def Service.cacheResult (cfg : Config) (key : String) (r : ValidationResult) (now : Nat) :
    String × CacheValidationResult × Nat :=
  let entry : CacheValidationResult :=
    { success := r.success, score := r.score, action := r.action,
      challengeTS := r.challengeTS, hostname := r.hostname,
      errorCodes := r.errorCodes, timestamp := now }
  let ttl := if r.IsValidToken then cfg.cacheTTLSeconds else cfg.cacheFailedTTLSeconds
  (key, entry, ttl)

/-- Result of one Service.Authorize call: the response together with the
error return value, the updated breaker, whether the verdict client was
invoked, and the cache write performed, if any. -/
structure StepResult where
  resp : AuthorizationResponse
  err : Option String
  breaker : Breaker
  verdictCalled : Bool
  cacheWrite : Option (String × CacheValidationResult × Nat)

/-- Service.Authorize.  The cache lookup outcome and the verdict the
client would produce are passed explicitly; the function mirrors the
source control flow: cache hit, breaker gate on a miss, breaker-wrapped
or direct validation, error handling, cache write and response. -/
def Service.Authorize (cfg : Config) (b : Breaker) (token : String)
    (lookup : CacheLookup) (verdict : Except String ValidationResult) (now : Nat) :
    StepResult :=
  let cacheKey := GenerateCacheKey token
  match lookup with
  | .found cached =>
      { resp := Service.createResponse (Service.convertCacheResult cached) "hit",
        err := none, breaker := b, verdictCalled := false, cacheWrite := none }
  | _ =>
      if cfg.circuitBreakerEnabled && Breaker.isOpen (Service.breakerConfig cfg) b now then
        { resp := Service.handleCircuitBreakerOpen cfg,
          err := none, breaker := b, verdictCalled := false, cacheWrite := none }
      else
        let step : Except String ValidationResult × Breaker × Bool :=
          if cfg.circuitBreakerEnabled then
            let ex := Breaker.execute (Service.breakerConfig cfg) b now
              (verdict.map fun _ => ())
            (match ex.result with
             | .ok _ => verdict
             | .error e => Except.error e,
             ex.breaker, ex.invoked)
          else
            (verdict, b, true)
        match step with
        | (.error _, b2, inv) =>
            { resp := Service.handleValidationError cfg,
              err := none, breaker := b2, verdictCalled := inv, cacheWrite := none }
        | (.ok result, b2, inv) =>
            { resp := Service.createResponse result "miss",
              err := none, breaker := b2, verdictCalled := inv,
              cacheWrite := some (Service.cacheResult cfg cacheKey result now) }

/-- Modelled from the spec: the cache contents, a list of entries with
their expiry instants; newer writes shadow older ones. -/
abbrev CacheState := List (String × CacheValidationResult × Nat)

/-- Modelled from the spec: cache lookup returns the stored verdict
while it has not expired and reports a miss otherwise. -/
def cacheGet (st : CacheState) (key : String) (now : Nat) : CacheLookup :=
  match st.find? (fun p => p.1 == key) with
  | some (_, entry, expiresAt) => if now < expiresAt then .found entry else .notFound
  | none => .notFound

/-- Modelled from the spec: cache write stores the entry with expiry at
now plus the TTL. -/
def cacheSet (st : CacheState) (key : String) (entry : CacheValidationResult)
    (ttl now : Nat) : CacheState :=
  (key, entry, now + ttl) :: st

/-- Service.Authorize driven by the cache state: the lookup is read from
the cache and the resulting write, if any, is applied to it. -/
def Service.AuthorizeWithCache (cfg : Config) (b : Breaker) (st : CacheState)
    (token : String) (verdict : Except String ValidationResult) (now : Nat) :
    StepResult × CacheState :=
  let res := Service.Authorize cfg b token (cacheGet st (GenerateCacheKey token) now)
    verdict now
  match res.cacheWrite with
  | some (k, entry, ttl) => (res, cacheSet st k entry ttl now)
  | none => (res, st)

/-- A run of consecutive cache-miss calls whose verdict call fails,
starting from a fresh breaker. -/
def failRun (cfg : Config) (token : String) (now : Nat) : Nat → Breaker
  | 0 => Breaker.init
  | n + 1 =>
      (Service.Authorize cfg (failRun cfg token now n) token .notFound
        (.error "timeout") now).breaker

/-- Outcome of the gin authorization endpoint. -/
inductive GinOutcome
  | badRequest
  | okStatus
  | forbiddenStatus
deriving DecidableEq

/-- Handler.authorizationHandler: a missing or empty X-Recaptcha-Token
header yields 400 before the service is called; otherwise the service
answer decides between 200 and 403.  The Bool records whether
Service.Authorize was invoked. -/
def Handler.authorizationHandler (token : String) (resp : AuthorizationResponse) :
    GinOutcome × Bool :=
  if token = "" then (.badRequest, false)
  else if resp.allowed then (.okStatus, true)
  else (.forbiddenStatus, true)

/-- The header carrying the recaptcha token at the ext_authz server. -/
def recaptchaTokenHeader : String := "x-recaptcha-token"

/-- Header lookup: the empty string stands for a missing header, as in
the Go map and header accessors. -/
def getHeader (headers : List (String × String)) (key : String) : String :=
  match headers.find? (fun p => p.1 == key) with
  | some p => p.2
  | none => ""

/-- Outcome of the ext_authz gRPC Check call. -/
inductive CheckOutcome
  | allowResponse
  | denyResponse
  | denyDetailed (status : String)
deriving DecidableEq

/-- ExtAuthzServer.Check: OPTIONS requests are allowed without a token;
a missing or empty token is denied with the static deny response before
the service runs; otherwise the service answer decides.  The Bool
records whether Service.Authorize was invoked. -/
def ExtAuthzServer.Check (method : String) (headers : List (String × String))
    (resp : AuthorizationResponse) : CheckOutcome × Bool :=
  if method = "OPTIONS" then (.allowResponse, false)
  else
    let token := getHeader headers recaptchaTokenHeader
    if token = "" then (.denyResponse, false)
    else if resp.allowed then (.allowResponse, true)
    else (.denyDetailed resp.status, true)

/-- HTTP status written by the ext_authz HTTP server. -/
inductive HTTPStatus
  | ok200
  | forbidden403
deriving DecidableEq

/-- ExtAuthzServer.ServeHTTP: OPTIONS requests are allowed without a
token; a missing or empty token is denied with 403 before the service
runs; otherwise the service answer decides.  The Bool records whether
Service.Authorize was invoked. -/
def ExtAuthzServer.ServeHTTP (method token : String) (resp : AuthorizationResponse) :
    HTTPStatus × Bool :=
  if method = "OPTIONS" then (.ok200, false)
  else if token = "" then (.forbidden403, false)
  else if resp.allowed then (.ok200, true)
  else (.forbidden403, true)

/-! Helper lemmas shared by the claim theorems. -/

/-- On a cache miss with the breaker not gating, a successful verdict
produces the miss response, the cache write, and one invoked call. -/
theorem authorize_ok_eq (cfg : Config) (b : Breaker) (tok : String)
    (r : ValidationResult) (now : Nat)
    (hng : cfg.circuitBreakerEnabled = true →
      Breaker.isOpen (Service.breakerConfig cfg) b now = false) :
    Service.Authorize cfg b tok .notFound (.ok r) now =
      { resp := Service.createResponse r "miss", err := none,
        breaker :=
          if cfg.circuitBreakerEnabled then
            (Breaker.execute (Service.breakerConfig cfg) b now (.ok ())).breaker
          else b,
        verdictCalled := true,
        cacheWrite := some (Service.cacheResult cfg (GenerateCacheKey tok) r now) } := by
  cases hcb : cfg.circuitBreakerEnabled with
  | false => simp [Service.Authorize, hcb]
  | true =>
      have hop := hng hcb
      simp [Service.Authorize, hcb, hop, Breaker.execute, Except.map]

/-- On a cache miss with the breaker not gating, a failed verdict call
produces the validation-error response and no cache write. -/
theorem authorize_error_eq (cfg : Config) (b : Breaker) (tok e : String) (now : Nat)
    (hng : cfg.circuitBreakerEnabled = true →
      Breaker.isOpen (Service.breakerConfig cfg) b now = false) :
    Service.Authorize cfg b tok .notFound (.error e) now =
      { resp := Service.handleValidationError cfg, err := none,
        breaker :=
          if cfg.circuitBreakerEnabled then
            (Breaker.execute (Service.breakerConfig cfg) b now (.error e)).breaker
          else b,
        verdictCalled := true, cacheWrite := none } := by
  cases hcb : cfg.circuitBreakerEnabled with
  | false => simp [Service.Authorize, hcb]
  | true =>
      have hop := hng hcb
      have hres : (Breaker.execute (Service.breakerConfig cfg) b now (Except.error e)).result
          = Except.error e := by
        simp only [Breaker.execute, hop]
        rw [if_neg Bool.false_ne_true]
        split <;> rfl
      have hinv : (Breaker.execute (Service.breakerConfig cfg) b now (Except.error e)).invoked
          = true := by
        simp only [Breaker.execute, hop]
        rw [if_neg Bool.false_ne_true]
        split <;> rfl
      simp only [Service.Authorize, hcb, hop, Except.map, Bool.and_false]
      rw [hres]
      simp [hinv]

/-- On a cache miss with the breaker gating the call, the breaker-open
response is produced and nothing else happens. -/
theorem authorize_gated_eq (cfg : Config) (b : Breaker) (tok : String)
    (v : Except String ValidationResult) (now : Nat)
    (hen : cfg.circuitBreakerEnabled = true)
    (hop : Breaker.isOpen (Service.breakerConfig cfg) b now = true) :
    Service.Authorize cfg b tok .notFound v now =
      { resp := Service.handleCircuitBreakerOpen cfg, err := none,
        breaker := b, verdictCalled := false, cacheWrite := none } := by
  simp [Service.Authorize, hen, hop]

/-- The status of a built response is valid, invalid, or one of the
error codes of the verdict it was built from. -/
theorem createResponse_status_cases (r : ValidationResult) (cs : String) :
    (Service.createResponse r cs).status = "valid" ∨
    (Service.createResponse r cs).status = "invalid" ∨
    (Service.createResponse r cs).status ∈ r.errorCodes := by
  simp only [Service.createResponse]
  split
  · exact Or.inl rfl
  · cases hq : r.errorCodes with
    | nil => simp [hq]
    | cons c tl => simp [hq]

/-! Claim theorems. -/

/-- Claim C1: every request on the failure path is decided by the
configured failure mode alone: fail_open allows with status degraded in
both failure cases; otherwise the request is denied with status
circuit_breaker_open when the breaker gated the call and timeout when
the verdict call itself failed; cacheStatus is miss in every case. -/
theorem claim1_failure_mode (cfg : Config) (b : Breaker) (tok e : String)
    (v : Except String ValidationResult) (now : Nat) :
    (cfg.circuitBreakerEnabled = true →
      Breaker.isOpen (Service.breakerConfig cfg) b now = true →
      (Service.Authorize cfg b tok .notFound v now).resp =
        if cfg.failureMode = "fail_open" then
          { allowed := true, status := "degraded", score := "", cache := "miss" }
        else
          { allowed := false, status := "circuit_breaker_open", score := "",
            cache := "miss" }) ∧
    ((cfg.circuitBreakerEnabled = true →
        Breaker.isOpen (Service.breakerConfig cfg) b now = false) →
      (Service.Authorize cfg b tok .notFound (.error e) now).resp =
        if cfg.failureMode = "fail_open" then
          { allowed := true, status := "degraded", score := "", cache := "miss" }
        else
          { allowed := false, status := "timeout", score := "", cache := "miss" }) := by
  constructor
  · intro hen hop
    rw [authorize_gated_eq cfg b tok v now hen hop]
    simp [Service.handleCircuitBreakerOpen]
  · intro hng
    rw [authorize_error_eq cfg b tok e now hng]
    simp [Service.handleValidationError]

/-- Breaker gated at a concrete open state and a concrete failed call:
fail_closed denies with the two distinct status labels and miss. -/
theorem claim1_witness :
    (Service.Authorize { defaultConfig with failureMode := "fail_closed" }
        { state := .Open, consecutiveFailures := 5, openedAt := 0,
          halfOpenRequests := 0, totalRequests := 5, totalFailures := 5 }
        "tok" .notFound (.ok emptyTokenResult) 0).resp =
      { allowed := false, status := "circuit_breaker_open", score := "",
        cache := "miss" } ∧
    (Service.Authorize { defaultConfig with failureMode := "fail_closed" }
        Breaker.init "tok" .notFound (.error "timeout") 0).resp =
      { allowed := false, status := "timeout", score := "", cache := "miss" } := by
  constructor
  · have h := (claim1_failure_mode { defaultConfig with failureMode := "fail_closed" }
      { state := .Open, consecutiveFailures := 5, openedAt := 0,
        halfOpenRequests := 0, totalRequests := 5, totalFailures := 5 }
      "tok" "timeout" (.ok emptyTokenResult) 0).1 rfl (by decide)
    rwa [if_neg (by decide)] at h
  · have h := (claim1_failure_mode { defaultConfig with failureMode := "fail_closed" }
      Breaker.init "tok" "timeout" (.ok emptyTokenResult) 0).2 (fun _ => by decide)
    rwa [if_neg (by decide)] at h

/-- Every branch of Authorize returns a nil error value. -/
theorem Authorize_err_none (cfg : Config) (b : Breaker) (tok : String)
    (lookup : CacheLookup) (v : Except String ValidationResult) (now : Nat) :
    (Service.Authorize cfg b tok lookup v now).err = none := by
  cases lookup <;> simp only [Service.Authorize] <;> try rfl
  all_goals
    split
    · rfl
    · split <;> rename_i hstep <;> simp [hstep]

/-- Claim C7: for every token and every combination of cache lookup
outcome, verdict outcome and breaker state, Authorize returns a decision
with a nil error value, and a backend error on the cache lookup is
handled exactly like a miss. -/
theorem claim7_no_error_propagation (cfg : Config) (b : Breaker) (tok : String)
    (lookup : CacheLookup) (v : Except String ValidationResult) (now : Nat)
    (st : CacheState) :
    (Service.Authorize cfg b tok lookup v now).err = none ∧
    (Service.AuthorizeWithCache cfg b st tok v now).1.err = none ∧
    (∀ m, Service.Authorize cfg b tok (.backendError m) v now =
      Service.Authorize cfg b tok .notFound v now) := by
  refine ⟨Authorize_err_none cfg b tok lookup v now, ?_, fun m => rfl⟩
  simp only [Service.AuthorizeWithCache]
  split <;> exact Authorize_err_none cfg b tok _ v now

/-- Claim C8: the decision exposes the score as the fixed two-digit
decimal rendering of the verdict score whenever the verdict carries a
positive score, and leaves the field absent when no score was produced. -/
theorem claim8_score_format (r : ValidationResult) (cs : String) :
    (0 < r.score →
      (Service.createResponse r cs).score = formatFloat2 r.score ∧
      formatFloat2 r.score =
        toString ((roundHalfEven (r.score * 100)).toNat / 100) ++ "." ++
          frac2 ((roundHalfEven (r.score * 100)).toNat % 100) ∧
      (frac2 ((roundHalfEven (r.score * 100)).toNat % 100)).length = 2) ∧
    (r.score ≤ 0 → (Service.createResponse r cs).score = "") := by
  constructor
  · intro h
    refine ⟨?_, rfl, rfl⟩
    simp [Service.createResponse, h]
  · intro h
    simp [Service.createResponse, not_lt.mpr h]

/-- A verdict carrying score one. -/
def scoreSample : ValidationResult :=
  { success := true, score := 1, action := "authz", challengeTS := "",
    hostname := "localhost", errorCodes := [] }

/-- Concrete score formatting: score one is rendered and a zero score
leaves the field absent. -/
theorem claim8_witness :
    (Service.createResponse scoreSample "miss").score = formatFloat2 1 ∧
    formatFloat2 1 = "1.00" ∧
    (Service.createResponse emptyTokenResult "miss").score = "" := by
  refine ⟨((claim8_score_format scoreSample "miss").1 (by decide)).1, ?_,
    (claim8_score_format emptyTokenResult "miss").2 (by decide)⟩
  unfold formatFloat2
  have h : roundHalfEven (1 * 100) = 100 := by
    unfold roundHalfEven
    norm_num
  rw [h]
  decide

/-- The built status differs from any string that is neither valid nor
invalid nor one of the error codes of the verdict. -/
theorem createResponse_status_ne (r : ValidationResult) (cs s : String)
    (hmem : s ∉ r.errorCodes) (h1 : s ≠ "valid") (h2 : s ≠ "invalid") :
    (Service.createResponse r cs).status ≠ s := by
  rcases createResponse_status_cases r cs with h | h | h
  · rw [h]; exact fun hc => h1 hc.symm
  · rw [h]; exact fun hc => h2 hc.symm
  · intro hc; rw [hc] at h; exact hmem h

/-- The validation-error response status is degraded or timeout. -/
theorem handleValidationError_status (cfg : Config) :
    (Service.handleValidationError cfg).status = "degraded" ∨
    (Service.handleValidationError cfg).status = "timeout" := by
  unfold Service.handleValidationError
  split
  · exact Or.inl rfl
  · exact Or.inr rfl

/-- Claim C9: with the circuit breaker disabled, a cache miss always
reaches the verdict client directly, the breaker is untouched, and no
decision can carry the circuit_breaker_open status. -/
theorem claim9_breaker_disabled (cfg : Config) (b : Breaker) (tok : String)
    (lookup : CacheLookup) (v : Except String ValidationResult) (now : Nat)
    (hcb : cfg.circuitBreakerEnabled = false)
    (hv : ∀ r, v = .ok r → "circuit_breaker_open" ∉ r.errorCodes)
    (hl : ∀ entry, lookup = .found entry → "circuit_breaker_open" ∉ entry.errorCodes) :
    (Service.Authorize cfg b tok lookup v now).breaker = b ∧
    (lookup = .notFound → (Service.Authorize cfg b tok lookup v now).verdictCalled = true) ∧
    (∀ m, lookup = .backendError m →
      (Service.Authorize cfg b tok lookup v now).verdictCalled = true) ∧
    (Service.Authorize cfg b tok lookup v now).resp.status ≠ "circuit_breaker_open" := by
  have hng : cfg.circuitBreakerEnabled = true →
      Breaker.isOpen (Service.breakerConfig cfg) b now = false := by
    intro h; rw [hcb] at h; simp at h
  have hmiss : ∀ lk, lk = CacheLookup.notFound ∨ (∃ m, lk = CacheLookup.backendError m) →
      (Service.Authorize cfg b tok lk v now).breaker = b ∧
      (Service.Authorize cfg b tok lk v now).verdictCalled = true ∧
      (Service.Authorize cfg b tok lk v now).resp.status ≠ "circuit_breaker_open" := by
    intro lk hlk
    have hred : Service.Authorize cfg b tok lk v now =
        Service.Authorize cfg b tok CacheLookup.notFound v now := by
      rcases hlk with h | ⟨m, h⟩
      · rw [h]
      · rw [h]; exact rfl
    rw [hred]
    cases v with
    | ok r =>
        rw [authorize_ok_eq cfg b tok r now hng]
        refine ⟨by simp [hcb], rfl, ?_⟩
        exact createResponse_status_ne r "miss" _ (hv r rfl) (by decide) (by decide)
    | error e =>
        rw [authorize_error_eq cfg b tok e now hng]
        refine ⟨by simp [hcb], rfl, ?_⟩
        rcases handleValidationError_status cfg with h | h <;> rw [h] <;> decide
  cases lookup with
  | found entry =>
      refine ⟨rfl, ?_, ?_, ?_⟩
      · intro h; simp at h
      · intro m h; simp at h
      · show (Service.createResponse (Service.convertCacheResult entry) "hit").status ≠ _
        exact createResponse_status_ne (Service.convertCacheResult entry) "hit" _
          (hl entry rfl) (by decide) (by decide)
  | notFound =>
      have h := hmiss CacheLookup.notFound (Or.inl rfl)
      exact ⟨h.1, fun _ => h.2.1, fun m hm => by simp at hm, h.2.2⟩
  | backendError m0 =>
      have h := hmiss (CacheLookup.backendError m0) (Or.inr ⟨m0, rfl⟩)
      exact ⟨h.1, fun hm => by simp at hm, fun m _ => h.2.1, h.2.2⟩

/-- Breaker disabled at a concrete configuration: the verdict client is
reached, the breaker is untouched, and the status is not
circuit_breaker_open. -/
theorem claim9_witness :
    (Service.Authorize { defaultConfig with circuitBreakerEnabled := false }
      Breaker.init "tok" .notFound (.ok emptyTokenResult) 0).breaker = Breaker.init ∧
    (Service.Authorize { defaultConfig with circuitBreakerEnabled := false }
      Breaker.init "tok" .notFound (.ok emptyTokenResult) 0).verdictCalled = true ∧
    (Service.Authorize { defaultConfig with circuitBreakerEnabled := false }
      Breaker.init "tok" .notFound (.ok emptyTokenResult) 0).resp.status ≠
        "circuit_breaker_open" := by
  have h := claim9_breaker_disabled { defaultConfig with circuitBreakerEnabled := false }
    Breaker.init "tok" .notFound (.ok emptyTokenResult) 0 rfl
    (by intro r hr; cases hr; decide)
    (by intro entry hent; cases hent)
  exact ⟨h.1, h.2.1 rfl, h.2.2.2⟩

/-- Claim C10: at both transports a request without a recaptcha token is
rejected before the decision engine runs, and OPTIONS requests pass the
ext_authz server without a token. -/
theorem claim10_transport_gate (method tok : String)
    (headers : List (String × String)) (resp : AuthorizationResponse)
    (hm : method ≠ "OPTIONS") :
    Handler.authorizationHandler "" resp = (.badRequest, false) ∧
    (getHeader headers recaptchaTokenHeader = "" →
      ExtAuthzServer.Check method headers resp = (.denyResponse, false)) ∧
    ExtAuthzServer.Check "OPTIONS" headers resp = (.allowResponse, false) ∧
    ExtAuthzServer.ServeHTTP method "" resp = (.forbidden403, false) ∧
    ExtAuthzServer.ServeHTTP "OPTIONS" tok resp = (.ok200, false) := by
  refine ⟨rfl, ?_, rfl, ?_, rfl⟩
  · intro hh
    simp [ExtAuthzServer.Check, hm, hh]
  · simp [ExtAuthzServer.ServeHTTP, hm]

/-- Concrete transport gate: a POST without the token header is turned
away everywhere without consulting the engine, and OPTIONS passes. -/
theorem claim10_witness :
    Handler.authorizationHandler ""
      { allowed := true, status := "valid", score := "", cache := "hit" } =
        (.badRequest, false) ∧
    ExtAuthzServer.Check "POST" []
      { allowed := true, status := "valid", score := "", cache := "hit" } =
        (.denyResponse, false) ∧
    ExtAuthzServer.Check "OPTIONS" []
      { allowed := true, status := "valid", score := "", cache := "hit" } =
        (.allowResponse, false) ∧
    ExtAuthzServer.ServeHTTP "POST" ""
      { allowed := true, status := "valid", score := "", cache := "hit" } =
        (.forbidden403, false) ∧
    ExtAuthzServer.ServeHTTP "OPTIONS" "tok"
      { allowed := true, status := "valid", score := "", cache := "hit" } =
        (.ok200, false) := by
  have h := claim10_transport_gate "POST" "tok" []
    { allowed := true, status := "valid", score := "", cache := "hit" } (by decide)
  exact ⟨h.1, h.2.1 rfl, h.2.2.1, h.2.2.2.1, h.2.2.2.2⟩

/-- Claim C4: every successfully returned verdict is translated as
allowed equal to success with no error reasons; status is valid when
allowed, otherwise the first error reason, or invalid when none was
given; the verdict is written to the cache; and cacheStatus is miss. -/
theorem claim4_verdict_translation (cfg : Config) (b : Breaker) (tok : String)
    (r : ValidationResult) (now : Nat)
    (hng : cfg.circuitBreakerEnabled = true →
      Breaker.isOpen (Service.breakerConfig cfg) b now = false) :
    (Service.Authorize cfg b tok .notFound (.ok r) now).resp.allowed =
      (r.success && r.errorCodes.isEmpty) ∧
    (r.IsValidToken = true →
      (Service.Authorize cfg b tok .notFound (.ok r) now).resp.status = "valid") ∧
    (r.IsValidToken = false → r.errorCodes = [] →
      (Service.Authorize cfg b tok .notFound (.ok r) now).resp.status = "invalid") ∧
    (∀ c tl, r.IsValidToken = false → r.errorCodes = c :: tl →
      (Service.Authorize cfg b tok .notFound (.ok r) now).resp.status = c) ∧
    (Service.Authorize cfg b tok .notFound (.ok r) now).cacheWrite =
      some (Service.cacheResult cfg (GenerateCacheKey tok) r now) ∧
    (Service.Authorize cfg b tok .notFound (.ok r) now).resp.cache = "miss" := by
  rw [authorize_ok_eq cfg b tok r now hng]
  refine ⟨?_, ?_, ?_, ?_, rfl, rfl⟩
  · simp [Service.createResponse, ValidationResult.IsValidToken]
  · intro h
    simp [Service.createResponse, h]
  · intro h hq
    simp [Service.createResponse, h, hq]
  · intro c tl h hq
    simp [Service.createResponse, h, hq]

/-- A concrete unsuccessful verdict is denied with its first error
reason as the status and the miss cache label. -/
theorem claim4_witness :
    (Service.Authorize defaultConfig Breaker.init "t" .notFound
        (.ok emptyTokenResult) 0).resp.status = "missing-input-response" ∧
    (Service.Authorize defaultConfig Breaker.init "t" .notFound
        (.ok emptyTokenResult) 0).resp.allowed = false ∧
    (Service.Authorize defaultConfig Breaker.init "t" .notFound
        (.ok emptyTokenResult) 0).resp.cache = "miss" := by
  have h := claim4_verdict_translation defaultConfig Breaker.init "t" emptyTokenResult 0
    (fun _ => by decide)
  refine ⟨h.2.2.2.1 "missing-input-response" [] (by decide) rfl, ?_, h.2.2.2.2.2⟩
  rw [h.1]
  decide

/-- Claim C5: decision-time cache writes attach the positive TTL exactly
for a successful verdict with no error reasons and the failed TTL for
any other verdict; a failed verdict call writes nothing to the cache;
under the default configuration the failed TTL is the larger one. -/
theorem claim5_ttl_policy (cfg : Config) (b : Breaker) (tok e : String)
    (r : ValidationResult) (now : Nat)
    (hng : cfg.circuitBreakerEnabled = true →
      Breaker.isOpen (Service.breakerConfig cfg) b now = false) :
    (r.IsValidToken = true →
      (Service.Authorize cfg b tok .notFound (.ok r) now).cacheWrite =
        some (GenerateCacheKey tok,
          (Service.cacheResult cfg (GenerateCacheKey tok) r now).2.1,
          cfg.cacheTTLSeconds)) ∧
    (r.IsValidToken = false →
      (Service.Authorize cfg b tok .notFound (.ok r) now).cacheWrite =
        some (GenerateCacheKey tok,
          (Service.cacheResult cfg (GenerateCacheKey tok) r now).2.1,
          cfg.cacheFailedTTLSeconds)) ∧
    (Service.Authorize cfg b tok .notFound (.error e) now).cacheWrite = none ∧
    defaultConfig.cacheTTLSeconds < defaultConfig.cacheFailedTTLSeconds := by
  rw [authorize_ok_eq cfg b tok r now hng, authorize_error_eq cfg b tok e now hng]
  refine ⟨?_, ?_, rfl, by decide⟩
  · intro h
    simp [Service.cacheResult, h]
  · intro h
    simp [Service.cacheResult, h]

/-- Concrete TTL selection: a valid verdict gets thirty seconds, the
missing-input verdict gets three hundred, and an errored call writes
nothing. -/
theorem claim5_witness :
    (Service.Authorize defaultConfig Breaker.init "t" .notFound
        (.ok scoreSample) 0).cacheWrite =
      some ("t", (Service.cacheResult defaultConfig "t" scoreSample 0).2.1, 30) ∧
    (Service.Authorize defaultConfig Breaker.init "t2" .notFound
        (.ok emptyTokenResult) 0).cacheWrite =
      some ("t2", (Service.cacheResult defaultConfig "t2" emptyTokenResult 0).2.1, 300) ∧
    (Service.Authorize defaultConfig Breaker.init "t" .notFound
        (.error "boom") 0).cacheWrite = none := by
  have h1 := claim5_ttl_policy defaultConfig Breaker.init "t" "boom" scoreSample 0
    (fun _ => by decide)
  have h2 := claim5_ttl_policy defaultConfig Breaker.init "t2" "boom" emptyTokenResult 0
    (fun _ => by decide)
  exact ⟨h1.1 (by decide), h2.2.1 (by decide), h1.2.2.1⟩

/-- One full cache-driven call on a miss with a successful verdict: the
miss response is produced and the entry is stored with its TTL. -/
theorem authorize_with_cache_ok_eq (cfg : Config) (b : Breaker) (st : CacheState)
    (tok : String) (r : ValidationResult) (now : Nat)
    (hmiss : cacheGet st (GenerateCacheKey tok) now = .notFound)
    (hng : cfg.circuitBreakerEnabled = true →
      Breaker.isOpen (Service.breakerConfig cfg) b now = false) :
    Service.AuthorizeWithCache cfg b st tok (.ok r) now =
      ({ resp := Service.createResponse r "miss", err := none,
         breaker :=
           if cfg.circuitBreakerEnabled then
             (Breaker.execute (Service.breakerConfig cfg) b now (.ok ())).breaker
           else b,
         verdictCalled := true,
         cacheWrite := some (GenerateCacheKey tok,
           { success := r.success, score := r.score, action := r.action,
             challengeTS := r.challengeTS, hostname := r.hostname,
             errorCodes := r.errorCodes, timestamp := now },
           if r.IsValidToken then cfg.cacheTTLSeconds else cfg.cacheFailedTTLSeconds) },
       (GenerateCacheKey tok,
         { success := r.success, score := r.score, action := r.action,
           challengeTS := r.challengeTS, hostname := r.hostname,
           errorCodes := r.errorCodes, timestamp := now },
         now +
           (if r.IsValidToken then cfg.cacheTTLSeconds else cfg.cacheFailedTTLSeconds))
         :: st) := by
  simp only [Service.AuthorizeWithCache, hmiss, authorize_ok_eq cfg b tok r now hng,
    Service.cacheResult, cacheSet]

/-- Reading back a just-written entry while its TTL has not elapsed. -/
theorem cacheGet_after_set (st : CacheState) (key : String)
    (entry : CacheValidationResult) (ttl now : Nat) (hp : 0 < ttl) :
    cacheGet (cacheSet st key entry ttl now) key now = .found entry := by
  have hlt : now < now + ttl := Nat.lt_add_of_pos_right hp
  simp [cacheGet, cacheSet, hlt]

/-- Claim C3 (amended): the empty token goes through the ordinary path.
On a cache miss with the breaker not gating, the decision is denied with
status missing-input-response and cacheStatus miss, but the verdict
client is invoked, the missing-input verdict is written to the cache
with the failed TTL, the breaker observes a successful call when it is
enabled, and an immediately repeated call answers from the cache. -/
theorem claim3_empty_token (cfg : Config) (b : Breaker) (st : CacheState) (now : Nat)
    (hmiss : cacheGet st (GenerateCacheKey "") now = .notFound)
    (hng : cfg.circuitBreakerEnabled = true →
      Breaker.isOpen (Service.breakerConfig cfg) b now = false)
    (hct : 0 < cfg.cacheFailedTTLSeconds) :
    (Service.AuthorizeWithCache cfg b st "" (.ok emptyTokenResult) now).1.resp.allowed
      = false ∧
    (Service.AuthorizeWithCache cfg b st "" (.ok emptyTokenResult) now).1.resp.status
      = "missing-input-response" ∧
    (Service.AuthorizeWithCache cfg b st "" (.ok emptyTokenResult) now).1.resp.cache
      = "miss" ∧
    (Service.AuthorizeWithCache cfg b st "" (.ok emptyTokenResult) now).1.verdictCalled
      = true ∧
    (Service.AuthorizeWithCache cfg b st "" (.ok emptyTokenResult) now).1.cacheWrite
      = some (GenerateCacheKey "",
          { success := false, score := 0, action := "", challengeTS := "",
            hostname := "", errorCodes := ["missing-input-response"],
            timestamp := now },
          cfg.cacheFailedTTLSeconds) ∧
    (cfg.circuitBreakerEnabled = true →
      (Service.AuthorizeWithCache cfg b st ""
        (.ok emptyTokenResult) now).1.breaker.totalRequests = b.totalRequests + 1) ∧
    (Service.AuthorizeWithCache cfg
        (Service.AuthorizeWithCache cfg b st "" (.ok emptyTokenResult) now).1.breaker
        (Service.AuthorizeWithCache cfg b st "" (.ok emptyTokenResult) now).2
        "" (.ok emptyTokenResult) now).1.resp.cache = "hit" := by
  have hfirst := authorize_with_cache_ok_eq cfg b st "" emptyTokenResult now hmiss hng
  rw [hfirst]
  refine ⟨rfl, rfl, rfl, rfl, ?_, ?_, ?_⟩
  · simp [emptyTokenResult, ValidationResult.IsValidToken]
  · intro hen
    have hop := hng hen
    simp only [hen, if_pos, Breaker.execute, hop]
    rw [if_neg Bool.false_ne_true]
  · have hget := cacheGet_after_set st (GenerateCacheKey "")
      { success := false, score := 0, action := "", challengeTS := "",
        hostname := "", errorCodes := ["missing-input-response"], timestamp := now }
      cfg.cacheFailedTTLSeconds now hct
    have hsimp : (if emptyTokenResult.IsValidToken then cfg.cacheTTLSeconds
        else cfg.cacheFailedTTLSeconds) = cfg.cacheFailedTTLSeconds := by
      simp [emptyTokenResult, ValidationResult.IsValidToken]
    simp only [emptyTokenResult] at hsimp ⊢
    rw [hsimp]
    simp only [Service.AuthorizeWithCache]
    rw [show cacheSet st (GenerateCacheKey "")
        { success := false, score := 0, action := "", challengeTS := "",
          hostname := "", errorCodes := ["missing-input-response"], timestamp := now }
        cfg.cacheFailedTTLSeconds now =
      (GenerateCacheKey "",
        { success := false, score := 0, action := "", challengeTS := "",
          hostname := "", errorCodes := ["missing-input-response"], timestamp := now },
        now + cfg.cacheFailedTTLSeconds) :: st from rfl] at hget
    rw [hget]
    rfl

/-- The claim as frozen is false at a concrete input: a first call with
the empty token writes to the cache and bumps the breaker counters, and
an immediately repeated call answers hit rather than miss. -/
theorem claim3_counterexample :
    ((Service.AuthorizeWithCache defaultConfig Breaker.init [] ""
        (.ok emptyTokenResult) 0).1.cacheWrite).isSome = true ∧
    (Service.AuthorizeWithCache defaultConfig Breaker.init [] ""
        (.ok emptyTokenResult) 0).1.breaker.totalRequests = 1 ∧
    (Service.AuthorizeWithCache defaultConfig
        (Service.AuthorizeWithCache defaultConfig Breaker.init [] ""
          (.ok emptyTokenResult) 0).1.breaker
        (Service.AuthorizeWithCache defaultConfig Breaker.init [] ""
          (.ok emptyTokenResult) 0).2
        "" (.ok emptyTokenResult) 0).1.resp.cache = "hit" := by
  exact ⟨by decide, by decide, by decide⟩

/-- The amended empty-token behavior at the concrete fresh service. -/
theorem claim3_witness :
    (Service.AuthorizeWithCache defaultConfig Breaker.init [] ""
        (.ok emptyTokenResult) 0).1.resp.allowed = false ∧
    (Service.AuthorizeWithCache defaultConfig Breaker.init [] ""
        (.ok emptyTokenResult) 0).1.resp.status = "missing-input-response" ∧
    (Service.AuthorizeWithCache defaultConfig Breaker.init [] ""
        (.ok emptyTokenResult) 0).1.resp.cache = "miss" ∧
    (Service.AuthorizeWithCache defaultConfig Breaker.init [] ""
        (.ok emptyTokenResult) 0).1.verdictCalled = true := by
  have h := claim3_empty_token defaultConfig Breaker.init [] 0 rfl
    (fun _ => by decide) (by decide)
  exact ⟨h.1, h.2.1, h.2.2.1, h.2.2.2.1⟩

/-- Claim C6: with a closed breaker and no TTL expiry, two immediate
calls with the same token answer miss then hit with identical allowed
and status values. -/
theorem claim6_repeat_call (cfg : Config) (b : Breaker) (st : CacheState)
    (tok : String) (r : ValidationResult) (now : Nat)
    (hmiss : cacheGet st (GenerateCacheKey tok) now = .notFound)
    (hng : cfg.circuitBreakerEnabled = true →
      Breaker.isOpen (Service.breakerConfig cfg) b now = false)
    (h1 : 0 < cfg.cacheTTLSeconds) (h2 : 0 < cfg.cacheFailedTTLSeconds) :
    (Service.AuthorizeWithCache cfg b st tok (.ok r) now).1.resp.cache = "miss" ∧
    (Service.AuthorizeWithCache cfg
        (Service.AuthorizeWithCache cfg b st tok (.ok r) now).1.breaker
        (Service.AuthorizeWithCache cfg b st tok (.ok r) now).2
        tok (.ok r) now).1.resp.cache = "hit" ∧
    (Service.AuthorizeWithCache cfg
        (Service.AuthorizeWithCache cfg b st tok (.ok r) now).1.breaker
        (Service.AuthorizeWithCache cfg b st tok (.ok r) now).2
        tok (.ok r) now).1.resp.allowed =
      (Service.AuthorizeWithCache cfg b st tok (.ok r) now).1.resp.allowed ∧
    (Service.AuthorizeWithCache cfg
        (Service.AuthorizeWithCache cfg b st tok (.ok r) now).1.breaker
        (Service.AuthorizeWithCache cfg b st tok (.ok r) now).2
        tok (.ok r) now).1.resp.status =
      (Service.AuthorizeWithCache cfg b st tok (.ok r) now).1.resp.status := by
  have hfirst := authorize_with_cache_ok_eq cfg b st tok r now hmiss hng
  have httl : 0 < (if r.IsValidToken then cfg.cacheTTLSeconds
      else cfg.cacheFailedTTLSeconds) := by
    split
    · exact h1
    · exact h2
  have hget := cacheGet_after_set st (GenerateCacheKey tok)
    { success := r.success, score := r.score, action := r.action,
      challengeTS := r.challengeTS, hostname := r.hostname,
      errorCodes := r.errorCodes, timestamp := now }
    (if r.IsValidToken then cfg.cacheTTLSeconds else cfg.cacheFailedTTLSeconds)
    now httl
  rw [hfirst]
  refine ⟨rfl, ?_, ?_, ?_⟩ <;>
  · simp only [Service.AuthorizeWithCache]
    rw [show cacheSet st (GenerateCacheKey tok)
        { success := r.success, score := r.score, action := r.action,
          challengeTS := r.challengeTS, hostname := r.hostname,
          errorCodes := r.errorCodes, timestamp := now }
        (if r.IsValidToken then cfg.cacheTTLSeconds else cfg.cacheFailedTTLSeconds)
        now =
      (GenerateCacheKey tok,
        { success := r.success, score := r.score, action := r.action,
          challengeTS := r.challengeTS, hostname := r.hostname,
          errorCodes := r.errorCodes, timestamp := now },
        now + (if r.IsValidToken then cfg.cacheTTLSeconds
          else cfg.cacheFailedTTLSeconds)) :: st from rfl] at hget
    rw [hget]
    rfl

/-- Concrete miss-then-hit pair with equal decision fields on a fresh
cache. -/
theorem claim6_witness :
    (Service.AuthorizeWithCache defaultConfig Breaker.init [] "tok"
        (.ok emptyTokenResult) 0).1.resp.cache = "miss" ∧
    (Service.AuthorizeWithCache defaultConfig
        (Service.AuthorizeWithCache defaultConfig Breaker.init [] "tok"
          (.ok emptyTokenResult) 0).1.breaker
        (Service.AuthorizeWithCache defaultConfig Breaker.init [] "tok"
          (.ok emptyTokenResult) 0).2
        "tok" (.ok emptyTokenResult) 0).1.resp.cache = "hit" ∧
    (Service.AuthorizeWithCache defaultConfig
        (Service.AuthorizeWithCache defaultConfig Breaker.init [] "tok"
          (.ok emptyTokenResult) 0).1.breaker
        (Service.AuthorizeWithCache defaultConfig Breaker.init [] "tok"
          (.ok emptyTokenResult) 0).2
        "tok" (.ok emptyTokenResult) 0).1.resp.status =
      (Service.AuthorizeWithCache defaultConfig Breaker.init [] "tok"
        (.ok emptyTokenResult) 0).1.resp.status := by
  have h := claim6_repeat_call defaultConfig Breaker.init [] "tok" emptyTokenResult 0
    rfl (fun _ => by decide) (by decide) (by decide)
  exact ⟨h.1, h.2.1, h.2.2.2⟩

/-- Below the threshold, consecutive failing calls keep the breaker
Closed and count every failure. -/
theorem failRun_closed (cfg : Config) (tok : String) (now : Nat)
    (hen : cfg.circuitBreakerEnabled = true) :
    ∀ k, k < cfg.circuitBreakerFailureThreshold →
      failRun cfg tok now k =
        { state := .Closed, consecutiveFailures := k, openedAt := 0,
          halfOpenRequests := 0, totalRequests := k, totalFailures := k } := by
  intro k
  induction k with
  | zero => intro _; rfl
  | succ n ih =>
      intro hlt
      have hrec := ih (Nat.lt_of_succ_lt hlt)
      show (Service.Authorize cfg (failRun cfg tok now n) tok .notFound
        (.error "timeout") now).breaker = _
      rw [hrec, authorize_error_eq cfg
        { state := .Closed, consecutiveFailures := n, openedAt := 0,
          halfOpenRequests := 0, totalRequests := n, totalFailures := n }
        tok "timeout" now (fun _ => rfl)]
      have hnle : ¬ cfg.circuitBreakerFailureThreshold ≤ n + 1 := by omega
      simp [hen, Breaker.execute, Breaker.evalState, Breaker.isOpen,
        Service.breakerConfig, hnle]

/-- Claim C2: starting from a fresh Closed breaker, the breaker stays
Closed below the threshold, becomes Open after exactly threshold many
consecutive verdict failures, and the next cache-miss call
short-circuits: the verdict client is not invoked and the decision is
the failure-mode one. -/
theorem claim2_breaker_threshold (cfg : Config) (tok : String) (now : Nat)
    (v : Except String ValidationResult)
    (hen : cfg.circuitBreakerEnabled = true)
    (ht : 0 < cfg.circuitBreakerFailureThreshold)
    (hr : 0 < cfg.circuitBreakerRecoveryTimeSeconds) :
    (∀ k, k < cfg.circuitBreakerFailureThreshold →
      (failRun cfg tok now k).state = .Closed ∧
      (failRun cfg tok now k).consecutiveFailures = k) ∧
    (failRun cfg tok now cfg.circuitBreakerFailureThreshold).state = .Open ∧
    (Service.Authorize cfg (failRun cfg tok now cfg.circuitBreakerFailureThreshold)
        tok .notFound v now).verdictCalled = false ∧
    (Service.Authorize cfg (failRun cfg tok now cfg.circuitBreakerFailureThreshold)
        tok .notFound v now).resp = Service.handleCircuitBreakerOpen cfg := by
  obtain ⟨t, hteq⟩ : ∃ t, cfg.circuitBreakerFailureThreshold = t + 1 :=
    ⟨cfg.circuitBreakerFailureThreshold - 1, by omega⟩
  have hclosed := failRun_closed cfg tok now hen
  have hopen : failRun cfg tok now cfg.circuitBreakerFailureThreshold =
      { state := .Open, consecutiveFailures := t + 1, openedAt := now,
        halfOpenRequests := 0, totalRequests := t + 1, totalFailures := t + 1 } := by
    rw [hteq]
    show (Service.Authorize cfg (failRun cfg tok now t) tok .notFound
      (.error "timeout") now).breaker = _
    rw [hclosed t (by omega), authorize_error_eq cfg
      { state := .Closed, consecutiveFailures := t, openedAt := 0,
        halfOpenRequests := 0, totalRequests := t, totalFailures := t }
      tok "timeout" now (fun _ => rfl)]
    have hle : cfg.circuitBreakerFailureThreshold ≤ t + 1 := by omega
    simp [hen, Breaker.execute, Breaker.evalState, Breaker.isOpen,
      Service.breakerConfig, hle]
  have hnot : ¬ (now + cfg.circuitBreakerRecoveryTimeSeconds ≤ now) := by omega
  have hopB : Breaker.isOpen (Service.breakerConfig cfg)
      { state := .Open, consecutiveFailures := t + 1, openedAt := now,
        halfOpenRequests := 0, totalRequests := t + 1, totalFailures := t + 1 }
      now = true := by
    simp [Breaker.isOpen, Breaker.evalState, Service.breakerConfig, hnot]
  refine ⟨fun k hk => by rw [hclosed k hk]; exact ⟨rfl, rfl⟩, ?_, ?_, ?_⟩
  · rw [hopen]
  · rw [hopen, authorize_gated_eq cfg _ tok v now hen hopB]
  · rw [hopen, authorize_gated_eq cfg _ tok v now hen hopB]

/-- At the default configuration, five consecutive failures open the
breaker and the sixth call short-circuits with the failure-mode
decision. -/
theorem claim2_witness :
    (failRun defaultConfig "tok" 0 5).state = .Open ∧
    (Service.Authorize defaultConfig (failRun defaultConfig "tok" 0 5) "tok" .notFound
      (.ok emptyTokenResult) 0).verdictCalled = false ∧
    (Service.Authorize defaultConfig (failRun defaultConfig "tok" 0 5) "tok" .notFound
      (.ok emptyTokenResult) 0).resp =
        Service.handleCircuitBreakerOpen defaultConfig := by
  have h := claim2_breaker_threshold defaultConfig "tok" 0 (.ok emptyTokenResult)
    rfl (by decide) (by decide)
  exact ⟨h.2.1, h.2.2.1, h.2.2.2⟩

end ExtAuthz
